import Mathlib

/-!
# Verification of `examples/uev_subscriber.c` (MQTT-C uev example)

A shallow embedding of the example program `src/examples/uev_subscriber.c`.
The program is single-threaded straight-line glue code: it parses up to three
command-line arguments, opens a non-blocking socket, initialises an MQTT
client, registers one I/O watcher and two timer watchers with the `uev` event
loop, subscribes, runs the loop and exits.  We model every externally visible
action of the program as an `Effect`, and each C function as a pure Lean
function producing the list of effects it performs (in order), together with
any value it returns.  Results of external library calls (`uev_init`,
`open_nb_socket`, `mqtt_connect`'s resulting error state, `uev_io_init`,
`uev_timer_init`, `uev_run`) are supplied by an environment record `Env`, so
`mainRun` is the straight-line control flow of `main` as a function of those
outcomes.
-/

namespace UevSubscriber

/-- The three static event-loop watcher handles of the program
(`w_pingtimer`, `w_acktimer`, `w_sockfd` in the C source). -/
inductive Watcher where
  | pingtimer
  | acktimer
  | sockfd
  deriving DecidableEq, Repr

/-- Event bits of the `uev` event-loop library (external dependency);
the exact numeric values come from its public header (epoll-derived
bitmasks); the claims only require them to be nonzero and pairwise
disjoint. -/
def UEV_READ : Nat := 1

/-- `UEV_WRITE` event bit of the `uev` library. -/
def UEV_WRITE : Nat := 4

/-- `UEV_ERROR` event bit(s) of the `uev` library. -/
def UEV_ERROR : Nat := 24

/-- `EXIT_FAILURE` from `<stdlib.h>`. -/
def EXIT_FAILURE : Nat := 1

/-- `EXIT_SUCCESS` from `<stdlib.h>`. -/
def EXIT_SUCCESS : Nat := 0

/-- One externally visible action of the program.  `printErr`/`printOut`
are writes to standard error/standard output; the four `notify*`
constructors are the MQTT client notification API; `timerSet`/`ioSet`/
`ioInit`/`timerInit`/`uevInit`/`uevRun` are event-loop API calls;
`openSocket`, `mqttInit`, `mqttConnect`, `mqttSubscribe`, `sleep`,
`closeFd` and `exitWith` model the remaining library/OS calls.
`printPublish topicBuf msgLen msg` models the `printf` in
`publish_callback` carrying its arguments: the NUL-terminated topic-name
buffer built by the function, the `%.*s` precision and the
application-message bytes. -/
inductive Effect where
  | printErr (s : String)
  | printOut (s : String)
  | notifyRecv
  | notifySend
  | notifyPingtimer
  | notifyAcktimer
  | timerSet (w : Watcher) (timeout : Int) (period : Int)
  | ioSet (w : Watcher) (fd : Int) (events : Nat)
  | uevInit
  | openSocket (addr port : String)
  | mqttInit (fd : Int)
  | mqttConnect
  | ioInit (w : Watcher) (fd : Int) (events : Nat)
  | timerInit (w : Watcher) (timeout period : Int)
  | mqttSubscribe (topic : String)
  | uevRun
  | sleep (n : Nat)
  | closeFd (fd : Int)
  | exitWith (status : Nat)
  | printPublish (topicBuf : List Nat) (msgLen : Nat) (msg : List Nat)
  deriving DecidableEq, Repr

/-- Is the effect a call into the MQTT client library? -/
def isMqttOp : Effect → Bool
  | .notifyRecv => true
  | .notifySend => true
  | .notifyPingtimer => true
  | .notifyAcktimer => true
  | .mqttInit _ => true
  | .mqttConnect => true
  | .mqttSubscribe _ => true
  | _ => false

/-- Is the effect a call into the `uev` event-loop library? -/
def isUevOp : Effect → Bool
  | .timerSet _ _ _ => true
  | .ioSet _ _ _ => true
  | .uevInit => true
  | .ioInit _ _ _ => true
  | .timerInit _ _ _ => true
  | .uevRun => true
  | _ => false

/-- Is the effect one of the four MQTT client notification calls? -/
def isMqttNotify : Effect → Bool
  | .notifyRecv => true
  | .notifySend => true
  | .notifyPingtimer => true
  | .notifyAcktimer => true
  | _ => false

/-- `sockfd_cb` (lines 26-42): the socket I/O callback.  Tests each of the
`UEV_ERROR`, `UEV_READ`, `UEV_WRITE` bits of `events` in that order,
printing an error line for `UEV_ERROR`, calling `mqtt_notify_recv` for
`UEV_READ` and `mqtt_notify_send` for `UEV_WRITE`. -/
def sockfd_cb (events : Nat) : List Effect :=
  (if events &&& UEV_ERROR = 0 then [] else [Effect.printErr "sockfd error\n"]) ++
  (if events &&& UEV_READ = 0 then [] else [Effect.notifyRecv]) ++
  (if events &&& UEV_WRITE = 0 then [] else [Effect.notifySend])

/-- `pingtimer_cb` (lines 44-53): prints an error line when `UEV_ERROR` is
set, then unconditionally prints `"ping timeout\n"` and calls
`mqtt_notify_pingtimer`. -/
def pingtimer_cb (events : Nat) : List Effect :=
  (if events &&& UEV_ERROR = 0 then [] else [Effect.printErr "pingtimer error\n"]) ++
  [Effect.printErr "ping timeout\n", Effect.notifyPingtimer]

/-- `acktimer_cb` (lines 55-64): prints an error line when `UEV_ERROR` is
set, then unconditionally prints `"ack timeout\n"` and calls
`mqtt_notify_acktimer`. -/
def acktimer_cb (events : Nat) : List Effect :=
  (if events &&& UEV_ERROR = 0 then [] else [Effect.printErr "acktimer error\n"]) ++
  [Effect.printErr "ack timeout\n", Effect.notifyAcktimer]

/-- Conversion of a (64-bit) time arithmetic result to the C `int` of
`int timeout = ...`: two's-complement wrap into `[-2^31, 2^31)`. -/
def toCInt (x : Int) : Int := (x + 2 ^ 31) % 2 ^ 32 - 2 ^ 31

/-- The timeout expression `t ? (t - MQTT_PAL_TIME()) * 1000 : 0` shared by
both timer hooks (lines 71 and 77), with `now` the value returned by
`MQTT_PAL_TIME()`; the assignment to the C `int timeout` truncates. -/
def cTimeout (t now : Int) : Int :=
  if t = 0 then 0 else toCInt ((t - now) * 1000)

/-- `set_ping_timer` (lines 70-74): computes the millisecond timeout and
calls `uev_timer_set(&w_pingtimer, timeout, 0)`. -/
def set_ping_timer (t now : Int) : List Effect :=
  [Effect.timerSet Watcher.pingtimer (cTimeout t now) 0]

/-- `set_ack_timeout` (lines 76-80): computes the millisecond timeout and
calls `uev_timer_set(&w_pingtimer, timeout, 0)` — note the C source passes
`&w_pingtimer`, not `&w_acktimer`, on line 79. -/
def set_ack_timeout (t now : Int) : List Effect :=
  [Effect.timerSet Watcher.pingtimer (cTimeout t now) 0]

/-- The observable fields of a `uev_t` I/O watcher: the watched file
descriptor and the event mask. -/
structure UevIo where
  fd : Int
  events : Nat
  deriving DecidableEq, Repr

/-- `uev_io_set(w, fd, events)`: stores the new descriptor and event mask
in the watcher (the event-loop internals are external). -/
def uev_io_set (w : UevIo) (fd : Int) (events : Nat) : UevIo :=
  { w with fd := fd, events := events }

/-- `enable_sendready_event` (lines 82-90): builds
`events = UEV_READ | UEV_ERROR`, ORs in `UEV_WRITE` when `enabled` is
nonzero, and calls `uev_io_set(&w_sockfd, w_sockfd.fd, events)`. -/
def enable_sendready_event (w : UevIo) (enabled : Int) : UevIo :=
  let events := UEV_READ ||| UEV_ERROR
  let events := if enabled = 0 then events else events ||| UEV_WRITE
  uev_io_set w w.fd events

/-- `exit_example` (lines 186-190): closes `sockfd` when it is not `-1`,
then calls `exit(status)`. -/
def exit_example (status : Nat) (sockfd : Int) : List Effect :=
  (if sockfd = -1 then [] else [Effect.closeFd sockfd]) ++ [Effect.exitWith status]

/-- Outcomes of the external library calls made by `main`, in program
order: the return codes of `uev_init`, `open_nb_socket`, whether
`client.error == MQTT_OK` after `mqtt_connect` (with the error string
otherwise), the return codes of `uev_io_init` and the two
`uev_timer_init` calls, and of `uev_run`. -/
structure Env where
  uev_init_rc : Int
  open_nb_socket_fd : Int
  mqtt_connect_ok : Bool
  mqtt_error_str : String
  uev_io_init_rc : Int
  uev_timer_init_ping_rc : Int
  uev_timer_init_ack_rc : Int
  uev_run_rc : Int
  deriving DecidableEq, Repr

/-- Address selection of `main` (lines 100-104):
`argv[1]` when `argc > 1`, else `"test.mosquitto.org"`. -/
def chooseAddr (argc : Nat) (argv : List String) : String :=
  if argc > 1 then argv.getD 1 "" else "test.mosquitto.org"

/-- Port selection of `main` (lines 107-111):
`argv[2]` when `argc > 2`, else `"1883"`. -/
def choosePort (argc : Nat) (argv : List String) : String :=
  if argc > 2 then argv.getD 2 "" else "1883"

/-- Topic selection of `main` (lines 114-118):
`argv[3]` when `argc > 3`, else `"datetime"`. -/
def chooseTopic (argc : Nat) (argv : List String) : String :=
  if argc > 3 then argv.getD 3 "" else "datetime"

/-- The stderr line `"uev_run returned %d\n"` (line 175). -/
def uevRunMsg (rc : Int) : String := "uev_run returned " ++ toString rc ++ "\n"

/-- `main` (lines 92-184) as the list of effects it performs, as a function
of `argc`/`argv` and the environment of external-call outcomes.  Follows
the C control flow line by line: argument selection, `uev_init`,
`open_nb_socket`, `mqtt_init`/`mqtt_connect` and the `client.error` check,
the three watcher initialisations, `mqtt_subscribe`, the two startup
prints, `uev_run` (printing its return code when nonzero), the disconnect
print, `sleep(1)` and `exit_example(EXIT_SUCCESS, sockfd)`. -/
def mainRun (env : Env) (argc : Nat) (argv : List String) : List Effect :=
  let addr := chooseAddr argc argv
  let port := choosePort argc argv
  let topic := chooseTopic argc argv
  Effect.uevInit ::
  if env.uev_init_rc ≠ 0 then
    Effect.printErr "Failed to init uev\n" :: exit_example EXIT_FAILURE (-1)
  else
    Effect.openSocket addr port ::
    let sockfd := env.open_nb_socket_fd
    if sockfd = -1 then
      Effect.printErr "Failed to open socket: " :: exit_example EXIT_FAILURE sockfd
    else
      Effect.mqttInit sockfd ::
      Effect.mqttConnect ::
      if ¬ env.mqtt_connect_ok then
        Effect.printErr ("error: " ++ env.mqtt_error_str ++ "\n") ::
          exit_example EXIT_FAILURE sockfd
      else
        Effect.ioInit Watcher.sockfd sockfd (UEV_READ ||| UEV_ERROR) ::
        if env.uev_io_init_rc ≠ 0 then
          Effect.printErr "uev_io_init failed\n" :: exit_example EXIT_FAILURE sockfd
        else
          Effect.timerInit Watcher.pingtimer 0 0 ::
          if env.uev_timer_init_ping_rc ≠ 0 then
            Effect.printErr "uev_timer_init failed\n" :: exit_example EXIT_FAILURE sockfd
          else
            Effect.timerInit Watcher.acktimer 0 0 ::
            if env.uev_timer_init_ack_rc ≠ 0 then
              Effect.printErr "uev_timer_init failed\n" :: exit_example EXIT_FAILURE sockfd
            else
              Effect.mqttSubscribe topic ::
              Effect.printOut (argv.getD 0 "" ++ " listening for '" ++ topic ++
                "' messages.\n") ::
              Effect.printOut "Press CTRL-C to exit.\n\n" ::
              Effect.uevRun ::
              ((if env.uev_run_rc ≠ 0 then [Effect.printErr (uevRunMsg env.uev_run_rc)]
                else []) ++
               Effect.printOut ("\n" ++ argv.getD 0 "" ++ " disconnecting from " ++
                 addr ++ "\n") ::
               Effect.sleep 1 ::
               exit_example EXIT_SUCCESS sockfd)

/-- Does some setup step of `main` fail (in which case the program aborts
before reaching `mqtt_subscribe`)? -/
def setupFails (env : Env) : Bool :=
  env.uev_init_rc ≠ 0 || env.open_nb_socket_fd = -1 || !env.mqtt_connect_ok ||
  env.uev_io_init_rc ≠ 0 || env.uev_timer_init_ping_rc ≠ 0 ||
  env.uev_timer_init_ack_rc ≠ 0

/-- The fields of `struct mqtt_response_publish` read by
`publish_callback`, with byte buffers as lists of byte values. -/
structure MqttResponsePublish where
  topic_name : List Nat
  topic_name_size : Nat
  application_message : List Nat
  application_message_size : Nat
  deriving DecidableEq, Repr

/-- `publish_callback` (lines 194-204): copies `topic_name_size` bytes of
`topic_name` into a fresh buffer, NUL-terminates it, prints the
`"Received publish..."` line with that buffer, the precision
`application_message_size` and the application-message bytes, frees the
buffer and returns; the `published` structure is never written through.
Returns the effect list together with the (unchanged) structure. -/
def publish_callback (p : MqttResponsePublish) : List Effect × MqttResponsePublish :=
  let topic_name := p.topic_name.take p.topic_name_size ++ [0]
  ([Effect.printPublish topic_name p.application_message_size p.application_message], p)

/-! ## Theorems -/

/-- C1: the program does maintain two distinct timer watchers
(`w_pingtimer` and `w_acktimer`), but `set_ack_timeout` does NOT arm the
ack-timer watcher: evaluating the code (line 79 passes `&w_pingtimer` to
`uev_timer_set`) at a concrete input, e.g. requested absolute time `5`
with current time `3`, shows the only watcher it arms is the ping-timer
watcher. -/
theorem set_ack_timeout_arms_ping_watcher :
    set_ack_timeout 5 3 = [Effect.timerSet Watcher.pingtimer 2000 0] := by
  decide

/-- C4: for every status and descriptor, `exit_example` closes the
descriptor exactly when `sockfd ≠ -1` (closing nothing when `sockfd = -1`)
and then terminates the process with the given status (the `exitWith`
effect is last). -/
theorem exit_example_close_then_exit (status : Nat) (sockfd : Int) :
    (sockfd ≠ -1 →
      exit_example status sockfd = [Effect.closeFd sockfd, Effect.exitWith status]) ∧
    (sockfd = -1 → exit_example status sockfd = [Effect.exitWith status]) ∧
    (exit_example status sockfd).getLast? = some (Effect.exitWith status) := by
  unfold exit_example
  by_cases h : sockfd = -1 <;> simp [h]

/-- Witness for C4: concrete evaluations at status `1` with descriptors
`3` and `-1`. -/
theorem exit_example_close_then_exit_witness :
    exit_example 1 3 = [Effect.closeFd 3, Effect.exitWith 1] ∧
    exit_example 1 (-1) = [Effect.exitWith 1] :=
  ⟨(exit_example_close_then_exit 1 3).1 (by decide),
   (exit_example_close_then_exit 1 (-1)).2.1 rfl⟩

/-- C5: for every event bitmask, `sockfd_cb` calls `mqtt_notify_recv`
exactly when the `UEV_READ` bit is set, `mqtt_notify_send` exactly when
the `UEV_WRITE` bit is set, prints the error line exactly when the
`UEV_ERROR` bit is set, and makes no client notification other than those
two. -/
theorem sockfd_cb_notifications (events : Nat) :
    (sockfd_cb events).count Effect.notifyRecv =
      (if events &&& UEV_READ = 0 then 0 else 1) ∧
    (sockfd_cb events).count Effect.notifySend =
      (if events &&& UEV_WRITE = 0 then 0 else 1) ∧
    (sockfd_cb events).count (Effect.printErr "sockfd error\n") =
      (if events &&& UEV_ERROR = 0 then 0 else 1) ∧
    (sockfd_cb events).countP (fun e => isMqttNotify e) =
      (sockfd_cb events).count Effect.notifyRecv +
        (sockfd_cb events).count Effect.notifySend := by
  unfold sockfd_cb
  by_cases h1 : events &&& UEV_ERROR = 0 <;> by_cases h2 : events &&& UEV_READ = 0 <;>
    by_cases h3 : events &&& UEV_WRITE = 0 <;>
      simp [h1, h2, h3, List.count_cons, List.countP_cons, isMqttNotify]

/-- C6: for every event bitmask (also one containing only `UEV_ERROR`),
`pingtimer_cb` ends by printing `"ping timeout\n"` and then calling
`mqtt_notify_pingtimer`, and `acktimer_cb` ends by printing
`"ack timeout\n"` and then calling `mqtt_notify_acktimer`. -/
theorem timer_callbacks_always_notify (events : Nat) :
    (∃ pre, pingtimer_cb events =
        pre ++ [Effect.printErr "ping timeout\n", Effect.notifyPingtimer]) ∧
    (∃ pre, acktimer_cb events =
        pre ++ [Effect.printErr "ack timeout\n", Effect.notifyAcktimer]) :=
  ⟨⟨if events &&& UEV_ERROR = 0 then [] else [Effect.printErr "pingtimer error\n"], rfl⟩,
   ⟨if events &&& UEV_ERROR = 0 then [] else [Effect.printErr "acktimer error\n"], rfl⟩⟩

/-- C9: both timer-setter hooks make exactly one `uev_timer_set` call,
always with repeat period `0` (one-shot), and with timeout
`(t - now) * 1000` truncated to a C `int` when `t` is nonzero and `0`
when `t` is zero. -/
theorem timer_hooks_oneshot_timeout (t now : Int) :
    (∃ w, set_ping_timer t now =
        [Effect.timerSet w (if t = 0 then 0 else toCInt ((t - now) * 1000)) 0]) ∧
    (∃ w, set_ack_timeout t now =
        [Effect.timerSet w (if t = 0 then 0 else toCInt ((t - now) * 1000)) 0]) :=
  ⟨⟨Watcher.pingtimer, rfl⟩, ⟨Watcher.pingtimer, rfl⟩⟩

/-- C7: for every received PUBLISH (whose size fields do not exceed the
buffers), `publish_callback` emits exactly one print carrying the
NUL-terminated copy of exactly `topic_name_size` bytes of `topic_name`,
the precision `application_message_size` and the application-message
bytes (of which the precision selects exactly `application_message_size`
bytes), and returns the response structure unchanged. -/
theorem publish_callback_output (p : MqttResponsePublish)
    (h1 : p.topic_name_size ≤ p.topic_name.length)
    (h2 : p.application_message_size ≤ p.application_message.length) :
    (publish_callback p).2 = p ∧
    (publish_callback p).1 =
      [Effect.printPublish (p.topic_name.take p.topic_name_size ++ [0])
        p.application_message_size p.application_message] ∧
    (p.topic_name.take p.topic_name_size ++ [0]).length = p.topic_name_size + 1 ∧
    (p.topic_name.take p.topic_name_size ++ [0]).getLast? = some 0 ∧
    (p.application_message.take p.application_message_size).length =
      p.application_message_size := by
  refine ⟨rfl, rfl, ?_, ?_, ?_⟩
  · simp [List.length_take, Nat.min_eq_left h1]
  · simp
  · simp [List.length_take, Nat.min_eq_left h2]

/-- Witness for C7: concrete evaluation on a publish with a 3-byte topic
(out of a 4-byte buffer) and a 2-byte message. -/
theorem publish_callback_output_witness :
    ((publish_callback ⟨[10, 11, 12, 13], 3, [20, 21], 2⟩).2 =
        ⟨[10, 11, 12, 13], 3, [20, 21], 2⟩ ∧
      (publish_callback ⟨[10, 11, 12, 13], 3, [20, 21], 2⟩).1 =
        [Effect.printPublish [10, 11, 12, 0] 2 [20, 21]]) := by
  have h := publish_callback_output ⟨[10, 11, 12, 13], 3, [20, 21], 2⟩
    (by decide) (by decide)
  exact ⟨h.1, by simpa using h.2.1⟩

/-- C2: for every argument vector, the broker address is `argv[1]` when
`argc > 1` and `"test.mosquitto.org"` otherwise; the port is `argv[2]`
when `argc > 2` and `"1883"` otherwise; the topic is `argv[3]` when
`argc > 3` and `"datetime"` otherwise; and appending arguments beyond
`argv[3]` changes none of the three values. -/
theorem argument_defaulting (argv : List String) :
    (∀ h : 1 < argv.length, chooseAddr argv.length argv = argv.get ⟨1, h⟩) ∧
    (argv.length ≤ 1 → chooseAddr argv.length argv = "test.mosquitto.org") ∧
    (∀ h : 2 < argv.length, choosePort argv.length argv = argv.get ⟨2, h⟩) ∧
    (argv.length ≤ 2 → choosePort argv.length argv = "1883") ∧
    (∀ h : 3 < argv.length, chooseTopic argv.length argv = argv.get ⟨3, h⟩) ∧
    (argv.length ≤ 3 → chooseTopic argv.length argv = "datetime") ∧
    (∀ rest : List String, 3 < argv.length →
      chooseAddr (argv ++ rest).length (argv ++ rest) = chooseAddr argv.length argv ∧
      choosePort (argv ++ rest).length (argv ++ rest) = choosePort argv.length argv ∧
      chooseTopic (argv ++ rest).length (argv ++ rest) = chooseTopic argv.length argv) := by
  refine ⟨?_, ?_, ?_, ?_, ?_, ?_, ?_⟩
  · intro h
    simp only [chooseAddr, if_pos h]
    rw [List.getD_eq_getElem _ _ h]
    simp
  · intro h
    simp only [chooseAddr]
    rw [if_neg (by omega)]
  · intro h
    simp only [choosePort, if_pos h]
    rw [List.getD_eq_getElem _ _ h]
    simp
  · intro h
    simp only [choosePort]
    rw [if_neg (by omega)]
  · intro h
    simp only [chooseTopic, if_pos h]
    rw [List.getD_eq_getElem _ _ h]
    simp
  · intro h
    simp only [chooseTopic]
    rw [if_neg (by omega)]
  · intro rest h
    have hlen : (argv ++ rest).length = argv.length + rest.length :=
      List.length_append _ _
    have h1 : 1 < argv.length := by omega
    have h2 : 2 < argv.length := by omega
    refine ⟨?_, ?_, ?_⟩
    · simp only [chooseAddr]
      rw [if_pos (by omega), if_pos h1, List.getD_append _ _ _ _ h1]
    · simp only [choosePort]
      rw [if_pos (by omega), if_pos h2, List.getD_append _ _ _ _ h2]
    · simp only [chooseTopic]
      rw [if_pos (by omega), if_pos h, List.getD_append _ _ _ _ h]

/-- Witness for C2: concrete evaluations with five arguments (address
taken from `argv[1]`, topic from `argv[3]`, `argv[4]` ignored) and with
one argument (all three defaults). -/
theorem argument_defaulting_witness :
    chooseAddr 5 ["p", "a", "b", "c", "d"] = "a" ∧
    chooseTopic 5 ["p", "a", "b", "c", "d"] = "c" ∧
    chooseAddr 1 ["p"] = "test.mosquitto.org" ∧
    choosePort 1 ["p"] = "1883" ∧
    chooseTopic 1 ["p"] = "datetime" := by
  refine ⟨?_, ?_, ?_, ?_, ?_⟩
  · have h := (argument_defaulting ["p", "a", "b", "c", "d"]).1 (by decide)
    simpa using h
  · have h := (argument_defaulting ["p", "a", "b", "c", "d"]).2.2.2.2.1 (by decide)
    simpa using h
  · have h := (argument_defaulting ["p"]).2.1 (by decide)
    simpa using h
  · have h := (argument_defaulting ["p"]).2.2.2.1 (by decide)
    simpa using h
  · have h := (argument_defaulting ["p"]).2.2.2.2.2.1 (by decide)
    simpa using h

/-- Shared helper: the final `exit_example` tail dominates `getLast?` of
any trace ending in it. -/
theorem getLast_append_exit (l : List Effect) (status : Nat) (fd : Int) :
    (l ++ exit_example status fd).getLast? = some (Effect.exitWith status) := by
  by_cases h : fd = -1 <;>
    simp [exit_example, h, List.getLast?_append_cons, List.getLast?_cons_cons]

/-- Shared helper: `getLast?` through two extra leading effects before the
exit tail. -/
theorem getLast_cons_cons_exit (l : List Effect) (a b : Effect) (status : Nat)
    (fd : Int) :
    (l ++ a :: b :: exit_example status fd).getLast? =
      some (Effect.exitWith status) := by
  have h : l ++ a :: b :: exit_example status fd =
      (l ++ [a, b]) ++ exit_example status fd := by simp
  rw [h]
  exact getLast_append_exit _ _ _

/-- Shared helper: a diagnostic line followed by the failure exit performs
no MQTT-client and no event-loop operation. -/
theorem abort_tail_no_ops (d : String) (fd : Int) :
    (Effect.printErr d :: exit_example EXIT_FAILURE fd).countP
      (fun e => isMqttOp e || isUevOp e) = 0 := by
  by_cases h : fd = -1 <;>
    simp [exit_example, h, List.countP_cons, isMqttOp, isUevOp]

/-- Shared helper: the full trace of `main` when every setup step
succeeds. -/
theorem mainRun_success_shape (env : Env) (argc : Nat) (argv : List String)
    (h1 : env.uev_init_rc = 0) (h2 : ¬ env.open_nb_socket_fd = -1)
    (h3 : env.mqtt_connect_ok = true) (h4 : env.uev_io_init_rc = 0)
    (h5 : env.uev_timer_init_ping_rc = 0) (h6 : env.uev_timer_init_ack_rc = 0) :
    mainRun env argc argv =
      [Effect.uevInit,
       Effect.openSocket (chooseAddr argc argv) (choosePort argc argv),
       Effect.mqttInit env.open_nb_socket_fd,
       Effect.mqttConnect,
       Effect.ioInit Watcher.sockfd env.open_nb_socket_fd (UEV_READ ||| UEV_ERROR),
       Effect.timerInit Watcher.pingtimer 0 0,
       Effect.timerInit Watcher.acktimer 0 0,
       Effect.mqttSubscribe (chooseTopic argc argv),
       Effect.printOut (argv.getD 0 "" ++ " listening for '" ++ chooseTopic argc argv ++
         "' messages.\n"),
       Effect.printOut "Press CTRL-C to exit.\n\n",
       Effect.uevRun] ++
      ((if env.uev_run_rc ≠ 0 then [Effect.printErr (uevRunMsg env.uev_run_rc)] else []) ++
       Effect.printOut ("\n" ++ argv.getD 0 "" ++ " disconnecting from " ++
         chooseAddr argc argv ++ "\n") ::
       Effect.sleep 1 ::
       exit_example EXIT_SUCCESS env.open_nb_socket_fd) := by
  simp [mainRun, h1, h2, h3, h4, h5, h6]

/-- C3: whenever some setup step fails, the trace of `main` is a prefix
followed by a diagnostic to standard error and the failure exit through
`exit_example` with status `EXIT_FAILURE`, and that diagnostic-plus-exit
tail performs no MQTT or event-loop operation; when all setup steps
succeed, the trace ends with the `exit(EXIT_SUCCESS)` effect. -/
theorem setup_failure_aborts (env : Env) (argc : Nat) (argv : List String) :
    (setupFails env = true →
      ∃ pre d fd, mainRun env argc argv =
          pre ++ Effect.printErr d :: exit_example EXIT_FAILURE fd ∧
        (Effect.printErr d :: exit_example EXIT_FAILURE fd).countP
          (fun e => isMqttOp e || isUevOp e) = 0) ∧
    (setupFails env = false →
      (mainRun env argc argv).getLast? = some (Effect.exitWith EXIT_SUCCESS)) := by
  constructor
  · intro hf
    by_cases h1 : env.uev_init_rc = 0
    · by_cases h2 : env.open_nb_socket_fd = -1
      · refine ⟨[Effect.uevInit,
          Effect.openSocket (chooseAddr argc argv) (choosePort argc argv)],
          "Failed to open socket: ", -1, ?_, abort_tail_no_ops _ _⟩
        simp [mainRun, h1, h2]
      · by_cases h3 : env.mqtt_connect_ok = true
        · by_cases h4 : env.uev_io_init_rc = 0
          · by_cases h5 : env.uev_timer_init_ping_rc = 0
            · by_cases h6 : env.uev_timer_init_ack_rc = 0
              · exfalso
                simp [setupFails, h1, h2, h3, h4, h5, h6] at hf
              · refine ⟨[Effect.uevInit,
                  Effect.openSocket (chooseAddr argc argv) (choosePort argc argv),
                  Effect.mqttInit env.open_nb_socket_fd,
                  Effect.mqttConnect,
                  Effect.ioInit Watcher.sockfd env.open_nb_socket_fd
                    (UEV_READ ||| UEV_ERROR),
                  Effect.timerInit Watcher.pingtimer 0 0,
                  Effect.timerInit Watcher.acktimer 0 0],
                  "uev_timer_init failed\n", env.open_nb_socket_fd, ?_,
                  abort_tail_no_ops _ _⟩
                simp [mainRun, h1, h2, h3, h4, h5, h6]
            · refine ⟨[Effect.uevInit,
                Effect.openSocket (chooseAddr argc argv) (choosePort argc argv),
                Effect.mqttInit env.open_nb_socket_fd,
                Effect.mqttConnect,
                Effect.ioInit Watcher.sockfd env.open_nb_socket_fd
                  (UEV_READ ||| UEV_ERROR),
                Effect.timerInit Watcher.pingtimer 0 0],
                "uev_timer_init failed\n", env.open_nb_socket_fd, ?_,
                abort_tail_no_ops _ _⟩
              simp [mainRun, h1, h2, h3, h4, h5]
          · refine ⟨[Effect.uevInit,
              Effect.openSocket (chooseAddr argc argv) (choosePort argc argv),
              Effect.mqttInit env.open_nb_socket_fd,
              Effect.mqttConnect,
              Effect.ioInit Watcher.sockfd env.open_nb_socket_fd
                (UEV_READ ||| UEV_ERROR)],
              "uev_io_init failed\n", env.open_nb_socket_fd, ?_,
              abort_tail_no_ops _ _⟩
            simp [mainRun, h1, h2, h3, h4]
        · refine ⟨[Effect.uevInit,
            Effect.openSocket (chooseAddr argc argv) (choosePort argc argv),
            Effect.mqttInit env.open_nb_socket_fd,
            Effect.mqttConnect],
            "error: " ++ env.mqtt_error_str ++ "\n", env.open_nb_socket_fd, ?_,
            abort_tail_no_ops _ _⟩
          simp [mainRun, h1, h2, h3]
    · refine ⟨[Effect.uevInit], "Failed to init uev\n", -1, ?_,
        abort_tail_no_ops _ _⟩
      simp [mainRun, h1]
  · intro hf
    simp only [setupFails, Bool.or_eq_false_iff, decide_eq_false_iff_not, ne_eq,
      not_not, Bool.not_eq_false] at hf
    obtain ⟨⟨⟨⟨⟨h1, h2⟩, h3⟩, h4⟩, h5⟩, h6⟩ := hf
    replace h3 : env.mqtt_connect_ok = true := by simpa using h3
    rw [mainRun_success_shape env argc argv h1 h2 h3 h4 h5 h6,
      ← List.append_assoc]
    exact getLast_cons_cons_exit _ _ _ _ _

/-- Witness for C3: concrete traces, one where `uev_init` fails (exit
status 1 after the diagnostic) and one where all setup succeeds (trace
ends with exit status 0). -/
theorem setup_failure_aborts_witness :
    (∃ pre d fd, mainRun ⟨5, 3, true, "", 0, 0, 0, 0⟩ 1 ["p"] =
        pre ++ Effect.printErr d :: exit_example EXIT_FAILURE fd ∧
      (Effect.printErr d :: exit_example EXIT_FAILURE fd).countP
        (fun e => isMqttOp e || isUevOp e) = 0) ∧
    (mainRun ⟨0, 3, true, "", 0, 0, 0, 0⟩ 1 ["p"]).getLast? =
      some (Effect.exitWith EXIT_SUCCESS) := by
  constructor
  · exact (setup_failure_aborts ⟨5, 3, true, "", 0, 0, 0, 0⟩ 1 ["p"]).1 (by decide)
  · exact (setup_failure_aborts ⟨0, 3, true, "", 0, 0, 0, 0⟩ 1 ["p"]).2 (by decide)

/-- C10: when setup succeeds and `uev_run` returns a nonzero code, the
trace after the `uev_run` call is exactly the stderr line carrying that
code, the disconnect message, the sleep, and the exit through the exit
helper with status `EXIT_SUCCESS`; the final exit status is still 0. -/
theorem uev_run_error_ignored (env : Env) (argc : Nat) (argv : List String)
    (hok : setupFails env = false) (hrc : env.uev_run_rc ≠ 0) :
    (∃ pre, mainRun env argc argv =
        pre ++ Effect.uevRun ::
          Effect.printErr (uevRunMsg env.uev_run_rc) ::
          Effect.printOut ("\n" ++ argv.getD 0 "" ++ " disconnecting from " ++
            chooseAddr argc argv ++ "\n") ::
          Effect.sleep 1 ::
          exit_example EXIT_SUCCESS env.open_nb_socket_fd) ∧
    (mainRun env argc argv).getLast? = some (Effect.exitWith EXIT_SUCCESS) := by
  simp only [setupFails, Bool.or_eq_false_iff, decide_eq_false_iff_not, ne_eq,
    not_not, Bool.not_eq_false] at hok
  obtain ⟨⟨⟨⟨⟨h1, h2⟩, h3⟩, h4⟩, h5⟩, h6⟩ := hok
  replace h3 : env.mqtt_connect_ok = true := by simpa using h3
  have hs := mainRun_success_shape env argc argv h1 h2 h3 h4 h5 h6
  rw [if_pos hrc] at hs
  constructor
  · refine ⟨[Effect.uevInit,
      Effect.openSocket (chooseAddr argc argv) (choosePort argc argv),
      Effect.mqttInit env.open_nb_socket_fd,
      Effect.mqttConnect,
      Effect.ioInit Watcher.sockfd env.open_nb_socket_fd (UEV_READ ||| UEV_ERROR),
      Effect.timerInit Watcher.pingtimer 0 0,
      Effect.timerInit Watcher.acktimer 0 0,
      Effect.mqttSubscribe (chooseTopic argc argv),
      Effect.printOut (argv.getD 0 "" ++ " listening for '" ++ chooseTopic argc argv ++
        "' messages.\n"),
      Effect.printOut "Press CTRL-C to exit.\n\n"], ?_⟩
    rw [hs]
    simp
  · rw [hs, ← List.append_assoc]
    exact getLast_cons_cons_exit _ _ _ _ _

/-- Witness for C10: concrete trace with successful setup and
`uev_run` returning `7`. -/
theorem uev_run_error_ignored_witness :
    (∃ pre, mainRun ⟨0, 3, true, "", 0, 0, 0, 7⟩ 1 ["p"] =
        pre ++ Effect.uevRun ::
          Effect.printErr (uevRunMsg 7) ::
          Effect.printOut ("\n" ++ ["p"].getD 0 "" ++ " disconnecting from " ++
            chooseAddr 1 ["p"] ++ "\n") ::
          Effect.sleep 1 ::
          exit_example EXIT_SUCCESS 3) ∧
    (mainRun ⟨0, 3, true, "", 0, 0, 0, 7⟩ 1 ["p"]).getLast? =
      some (Effect.exitWith EXIT_SUCCESS) := by
  have h := uev_run_error_ignored ⟨0, 3, true, "", 0, 0, 0, 7⟩ 1 ["p"]
    (by decide) (by decide)
  exact h

/-- C8: every `uev_io_init` the program ever performs registers the socket
watcher with exactly the mask `UEV_READ ||| UEV_ERROR`, and
`enable_sendready_event` keeps the watched descriptor unchanged and sets
the mask to `UEV_READ ||| UEV_ERROR` plus `UEV_WRITE` exactly when its
`enabled` argument is nonzero, so the mask always contains `UEV_READ`
and `UEV_ERROR`. -/
theorem sockfd_watcher_mask (env : Env) (argc : Nat) (argv : List String)
    (w0 : Watcher) (fd : Int) (ev : Nat) (w : UevIo) (enabled : Int)
    (hmem : Effect.ioInit w0 fd ev ∈ mainRun env argc argv) :
    (w0 = Watcher.sockfd ∧ ev = (UEV_READ ||| UEV_ERROR)) ∧
    (enable_sendready_event w enabled).fd = w.fd ∧
    (enable_sendready_event w enabled).events =
      ((UEV_READ ||| UEV_ERROR) ||| if enabled = 0 then 0 else UEV_WRITE) ∧
    (enable_sendready_event w enabled).events &&& UEV_READ ≠ 0 ∧
    (enable_sendready_event w enabled).events &&& UEV_ERROR ≠ 0 := by
  refine ⟨?_, ?_, ?_, ?_, ?_⟩
  · by_cases h1 : env.uev_init_rc = 0 <;>
      by_cases h2 : env.open_nb_socket_fd = -1 <;>
        by_cases h3 : env.mqtt_connect_ok = true <;>
          by_cases h4 : env.uev_io_init_rc = 0 <;>
            by_cases h5 : env.uev_timer_init_ping_rc = 0 <;>
              by_cases h6 : env.uev_timer_init_ack_rc = 0 <;>
                by_cases h7 : env.uev_run_rc = 0 <;>
                  simp [mainRun, exit_example, h1, h2, h3, h4, h5, h6, h7,
                    UEV_READ, UEV_ERROR] at hmem <;>
                    simp [UEV_READ, UEV_ERROR] <;> tauto
  · by_cases h : enabled = 0 <;> simp [enable_sendready_event, uev_io_set, h]
  · by_cases h : enabled = 0 <;> simp [enable_sendready_event, uev_io_set, h]
  · by_cases h : enabled = 0 <;>
      simp [enable_sendready_event, uev_io_set, h, UEV_READ, UEV_ERROR, UEV_WRITE]
  · by_cases h : enabled = 0 <;>
      simp [enable_sendready_event, uev_io_set, h, UEV_READ, UEV_ERROR, UEV_WRITE]

/-- Witness for C8: the watcher registration in a concrete successful
setup trace carries the mask `UEV_READ ||| UEV_ERROR = 25`, and
`enable_sendready_event` on a concrete watcher with `enabled = 1` yields
mask `29` with the same descriptor. -/
theorem sockfd_watcher_mask_witness :
    (Watcher.sockfd = Watcher.sockfd ∧ (25 : Nat) = (UEV_READ ||| UEV_ERROR)) ∧
    (enable_sendready_event ⟨3, 25⟩ 1).fd = (3 : Int) ∧
    (enable_sendready_event ⟨3, 25⟩ 1).events = 29 ∧
    (enable_sendready_event ⟨3, 25⟩ 1).events &&& UEV_READ ≠ 0 ∧
    (enable_sendready_event ⟨3, 25⟩ 1).events &&& UEV_ERROR ≠ 0 := by
  have h := sockfd_watcher_mask ⟨0, 3, true, "", 0, 0, 0, 0⟩ 1 ["p"]
    Watcher.sockfd 3 25 ⟨3, 25⟩ 1 (by decide)
  exact ⟨h.1, h.2.1, by simpa using h.2.2.1, h.2.2.2.1, h.2.2.2.2⟩

end UevSubscriber
